import Mathlib

/-!
Shallow embedding of `src/lib.rs` of the `dikc-detector` crate.

The crate exposes one public function `check()` that runs two sub-checks,
`check_posix()` (OS version threshold 14.4) and `check_machine()` (hardware
model denylist), each of which reads one sysctl value.  We model the two
sysctl reads as inputs of type `Except ε String`, where `ε` stands for the
crate's `SysctlError` (treated as an abstract type), `Except.ok s` is a
successful read of string `s` and `Except.error e` a failed read.  All other
logic is translated directly from the Rust source.
-/

namespace Dikc

/-- The `Error` enum of `src/lib.rs` (lines 13-24), parametrised by the
abstract type `ε` of `sysctl::SysctlError` values. -/
inductive Error (ε : Type) where
  /-- `Error::NotPosix`: the macOS version is not compliant with POSIX. -/
  | NotPosix : Error ε
  /-- `Error::BadMacModel`: the Mac model is bad. -/
  | BadMacModel : Error ε
  /-- `Error::Sysctl(SysctlError)`: wraps an error from the sysctl crate. -/
  | Sysctl : ε → Error ε
  /-- `Error::ParseOsVersion`: error when parsing the macOS version. -/
  | ParseOsVersion : Error ε
  /-- `Error::Many(Vec<Error>)`: variant that contains multiple errors. -/
  | Many : List (Error ε) → Error ε
  deriving Repr

/-- Rust `str::split('.')` on the character list of a string: splits on every
occurrence of `'.'`, keeping empty pieces, and yields `[""]` on the empty
string (as the Rust iterator does). -/
def split_dot : List Char → List (List Char)
  | [] => [[]]
  | c :: rest =>
    let r := split_dot rest
    if c = '.' then [] :: r
    else
      match r with
      | h :: t => (c :: h) :: t
      | [] => [[c]]

/-- Rust `str::parse::<usize>()` (line 97 / 102): an optional leading `'+'`,
then one or more ASCII digits, rejecting anything else, the empty string and
values that overflow the 64-bit `usize`.  Returns `none` exactly when the
Rust parse returns `Err`, which `check_posix` maps to `ParseOsVersion`. -/
def parse_usize (cs : List Char) : Option Nat :=
  let ds := match cs with
    | '+' :: rest => rest
    | l => l
  if ds ≠ [] ∧ ds.all Char.isDigit then
    let v := ds.foldl (fun acc c => 10 * acc + (c.toNat - '0'.toNat)) 0
    if v < 2 ^ 64 then some v else none
  else none

/-- The `for num in ver_split` loop of `check_posix` (lines 95-110), with the
`is_sonoma` flag as the second argument.  Exhausting the components falls
through to the `Err(Error::ParseOsVersion)` after the loop (line 110). -/
def check_posix_loop {ε : Type} : List (List Char) → Bool → Except (Error ε) Unit
  | [], _ => .error .ParseOsVersion
  | num :: rest, false =>
    match parse_usize num with
    | none => .error .ParseOsVersion
    | some v =>
      if v ≤ 13 then .ok ()
      else if v = 14 then check_posix_loop rest true
      else .error .NotPosix
  | num :: _, true =>
    match parse_usize num with
    | none => .error .ParseOsVersion
    | some v => if v ≤ 3 then .ok () else .error .NotPosix

/-- The pure part of `check_posix` (lines 93-110): what it does once the
sysctl read has produced the version string `ver_str`. -/
def check_posix_str {ε : Type} (ver_str : String) : Except (Error ε) Unit :=
  check_posix_loop (split_dot ver_str.data) false

/-- `check_posix` (lines 90-111).  The two fallible sysctl steps
(`Ctl::new(KERN_OSPRODUCTVERSION)?` and `ctl.value_string()?`) are modelled
as one query result; a failure is converted by `From<SysctlError>` into
`Error::Sysctl`. -/
def check_posix {ε : Type} (query : Except ε String) : Except (Error ε) Unit :=
  match query with
  | .error e => .error (.Sysctl e)
  | .ok ver_str => check_posix_str ver_str

/-- `PULP_MACHINE` (line 64): the denylisted hardware model. -/
def PULP_MACHINE : String := "MacBookPro16,1"

/-- `check_machine` (lines 113-120): fails with `BadMacModel` exactly when
the sysctl-reported `hw.model` string equals `PULP_MACHINE`. -/
def check_machine {ε : Type} (query : Except ε String) : Except (Error ε) Unit :=
  match query with
  | .error e => .error (.Sysctl e)
  | .ok model => if model = PULP_MACHINE then .error .BadMacModel else .ok ()

/-- The error list a sub-check contributes to the `errs` vector of `check`
(lines 73-79): nothing on success, its error on failure. -/
def errs_of {ε : Type} (r : Except (Error ε) Unit) : List (Error ε) :=
  match r with
  | .ok _ => []
  | .error e => [e]

/-- The aggregation at the end of `check` (lines 80-86).  The Rust code is
`if errs.is_empty() { Ok(()) } else if let Some(err) =
errs.pop().filter(|_| errs.is_empty()) { Err(err) } else
{ Err(Error::Many(errs)) }`: an empty vector yields `Ok`; otherwise the last
error is popped, and it is returned alone when nothing remains (the vector
held exactly one error); otherwise `Many` is built from the vector *after*
the pop, i.e. from `errs.dropLast` — the popped last error is discarded. -/
def aggregate {ε : Type} (errs : List (Error ε)) : Except (Error ε) Unit :=
  match errs with
  | [] => .ok ()
  | [e] => .error e
  | es => .error (.Many es.dropLast)

/-- `check` (lines 72-87): runs both sub-checks, collects their errors in
check order (version first, machine second) and aggregates. -/
def check {ε : Type} (ver_query model_query : Except ε String) :
    Except (Error ε) Unit :=
  aggregate (errs_of (check_posix ver_query) ++ errs_of (check_machine model_query))

/-- Instrumentation of the `check_posix` loop recording whether the loop
exhausts its components and falls through to the post-loop
`Err(Error::ParseOsVersion)` at line 110 (rather than returning from inside
the loop).  Mirrors `check_posix_loop` branch for branch. -/
def check_posix_loop_exhausts : List (List Char) → Bool → Bool
  | [], _ => true
  | num :: rest, false =>
    match parse_usize num with
    | none => false
    | some v =>
      if v ≤ 13 then false
      else if v = 14 then check_posix_loop_exhausts rest true
      else false
  | _ :: _, true => false

/-- A system state: the values the two sysctl queries
(`kern.osproductversion` and `hw.model`) would report, each either a string
or a system-level error. -/
structure SystemState (ε : Type) where
  /-- Outcome of reading `kern.osproductversion`. -/
  osproductversion : Except ε String
  /-- Outcome of reading `hw.model`. -/
  hw_model : Except ε String

/-- One invocation of `check()` against a system state, returning the result
together with the state afterwards.  The Rust function performs only the two
read-only sysctl queries — it contains no writes and no mutable or global
state — so the state component is returned unchanged. -/
def run_check {ε : Type} (s : SystemState ε) :
    Except (Error ε) Unit × SystemState ε :=
  (check s.osproductversion s.hw_model, s)

/-- The sonoma branch of the loop (Rust lines 102-106) inspects only the
component at hand, never the remaining components. -/
lemma check_posix_loop_true_tail {ε : Type} (num : List Char)
    (t₁ t₂ : List (List Char)) :
    (check_posix_loop (num :: t₁) true : Except (Error ε) Unit)
      = check_posix_loop (num :: t₂) true := rfl

/-- The loop's outcome is determined by the first two components of its
input list. -/
lemma check_posix_loop_take_two {ε : Type} (l₁ l₂ : List (List Char))
    (h : l₁.take 2 = l₂.take 2) :
    (check_posix_loop l₁ false : Except (Error ε) Unit)
      = check_posix_loop l₂ false := by
  cases l₁ with
  | nil =>
    cases l₂ with
    | nil => rfl
    | cons a t => simp at h
  | cons a t₁ =>
    cases l₂ with
    | nil => simp at h
    | cons a' t₂ =>
      simp only [List.take_succ_cons, List.cons.injEq] at h
      obtain ⟨rfl, h⟩ := h
      cases t₁ with
      | nil =>
        cases t₂ with
        | nil => rfl
        | cons b t => simp at h
      | cons b u₁ =>
        cases t₂ with
        | nil => simp at h
        | cons b' u₂ =>
          simp only [List.take_succ_cons, List.take_zero, List.cons.injEq,
            and_true] at h
          subst h
          simp only [check_posix_loop]

/-- Claim C1 (code bug): the spec requires that when both sub-checks fail,
`check()` return a `Many` aggregate holding both errors in check order
(`[NotPosix, BadMacModel]` here).  The code instead pops the machine error
off the vector before building `Many`, so on a system reporting version
`14.4` and model `MacBookPro16,1` it returns `Many [NotPosix]`: one element,
the machine error discarded. -/
theorem C1_both_fail_many_drops_machine_error :
    (check (.ok "14.4") (.ok "MacBookPro16,1") : Except (Error Unit) Unit)
      = .error (.Many [.NotPosix]) := rfl

/-- Claim C2: the 14.4 threshold.  Versions `14.0`-`14.3` pass; a first
component parsing to 14 followed by a second component parsing to a value
greater than 3 (numerically) fails with `NotPosix`; a first component
parsing to a value greater than 14 fails with `NotPosix` with no constraint
on the remaining components (they are never inspected). -/
theorem C2_version_threshold :
    ((check_posix_str "14.0" : Except (Error Unit) Unit) = .ok ()
      ∧ (check_posix_str "14.1" : Except (Error Unit) Unit) = .ok ()
      ∧ (check_posix_str "14.2" : Except (Error Unit) Unit) = .ok ()
      ∧ (check_posix_str "14.3" : Except (Error Unit) Unit) = .ok ())
    ∧ (∀ (ε : Type) (v : String) (maj minor : List Char)
        (rest : List (List Char)) (m : Nat),
        split_dot v.data = maj :: minor :: rest →
        parse_usize maj = some 14 → parse_usize minor = some m → 3 < m →
        (check_posix_str v : Except (Error ε) Unit) = .error .NotPosix)
    ∧ (∀ (ε : Type) (v : String) (maj : List Char)
        (rest : List (List Char)) (M : Nat),
        split_dot v.data = maj :: rest →
        parse_usize maj = some M → 14 < M →
        (check_posix_str v : Except (Error ε) Unit) = .error .NotPosix) := by
  refine ⟨⟨rfl, rfl, rfl, rfl⟩, ?_, ?_⟩
  · intro ε v maj minor rest m hsplit hmaj hminor hm
    simp only [check_posix_str, hsplit, check_posix_loop, hmaj]
    rw [if_neg (by omega), if_pos trivial]
    simp only [check_posix_loop, hminor]
    rw [if_neg (by omega)]
  · intro ε v maj rest M hsplit hmaj hM
    simp only [check_posix_str, hsplit, check_posix_loop, hmaj]
    rw [if_neg (by omega), if_neg (by omega)]

/-- Witness for C2 at the concrete versions `14.10` and `15.x`. -/
theorem C2_version_threshold_witness :
    (check_posix_str "14.10" : Except (Error Unit) Unit) = .error .NotPosix
    ∧ (check_posix_str "15.x" : Except (Error Unit) Unit) = .error .NotPosix :=
  ⟨C2_version_threshold.2.1 Unit "14.10" ['1', '4'] ['1', '0'] [] 10
      rfl rfl rfl (by decide),
   C2_version_threshold.2.2 Unit "15.x" ['1', '5'] [['x']] 15
      rfl rfl (by decide)⟩

/-- Claim C3: whenever the first dot-separated component parses as a
non-negative integer at most 13, the version check succeeds, whatever the
remaining components are. -/
theorem C3_major_at_most_13 :
    ∀ (ε : Type) (v : String) (maj : List Char) (rest : List (List Char))
      (n : Nat),
      split_dot v.data = maj :: rest → parse_usize maj = some n → n ≤ 13 →
      (check_posix_str v : Except (Error ε) Unit) = .ok () := by
  intro ε v maj rest n hsplit hmaj hn
  simp only [check_posix_str, hsplit, check_posix_loop, hmaj]
  rw [if_pos hn]

/-- Witness for C3 at the concrete version `0.foo`. -/
theorem C3_major_at_most_13_witness :
    (check_posix_str "0.foo" : Except (Error Unit) Unit) = .ok () :=
  C3_major_at_most_13 Unit "0.foo" ['0'] [['f', 'o', 'o']] 0
    rfl rfl (by decide)

/-- Counterexample to claim C4 as stated: `"13.x"` contains the component
`"x"`, which does not parse as a non-negative integer, yet the version check
succeeds (the first component 13 decides before `"x"` is inspected). -/
theorem C4_counterexample :
    (['x'] ∈ split_dot ("13.x").data ∧ parse_usize ['x'] = none)
    ∧ (check_posix_str "13.x" : Except (Error Unit) Unit) = .ok () :=
  ⟨⟨by decide, rfl⟩, rfl⟩

/-- Claim C4 as amended: `ParseOsVersion` is produced for the empty version
string, for any version string whose first component fails to parse, and
for any version string whose first component parses to 14 and whose second
component fails to parse; a non-parsing component is only reached in those
positions. -/
theorem C4_parse_failures :
    ((check_posix_str "" : Except (Error Unit) Unit) = .error .ParseOsVersion)
    ∧ (∀ (ε : Type) (v : String) (maj : List Char) (rest : List (List Char)),
        split_dot v.data = maj :: rest → parse_usize maj = none →
        (check_posix_str v : Except (Error ε) Unit) = .error .ParseOsVersion)
    ∧ (∀ (ε : Type) (v : String) (maj minor : List Char)
        (rest : List (List Char)),
        split_dot v.data = maj :: minor :: rest →
        parse_usize maj = some 14 → parse_usize minor = none →
        (check_posix_str v : Except (Error ε) Unit) = .error .ParseOsVersion) := by
  refine ⟨rfl, ?_, ?_⟩
  · intro ε v maj rest hsplit hmaj
    simp only [check_posix_str, hsplit, check_posix_loop, hmaj]
  · intro ε v maj minor rest hsplit hmaj hminor
    simp only [check_posix_str, hsplit, check_posix_loop, hmaj]
    rw [if_neg (by omega), if_pos trivial]
    simp only [check_posix_loop, hminor]

/-- Witness for the amended C4 at the concrete versions `x.1` and `14.x`. -/
theorem C4_parse_failures_witness :
    (check_posix_str "x.1" : Except (Error Unit) Unit) = .error .ParseOsVersion
    ∧ (check_posix_str "14.x" : Except (Error Unit) Unit)
      = .error .ParseOsVersion :=
  ⟨C4_parse_failures.2.1 Unit "x.1" ['x'] [['1']] rfl rfl,
   C4_parse_failures.2.2 Unit "14.x" ['1', '4'] ['x'] [] rfl rfl rfl⟩

/-- Claim C5: the machine check fails with `BadMacModel` exactly on the
string `MacBookPro16,1`, and succeeds on every other string. -/
theorem C5_machine_denylist :
    ∀ (ε : Type) (model : String),
      (model = PULP_MACHINE →
        (check_machine (.ok model) : Except (Error ε) Unit)
          = .error .BadMacModel)
      ∧ (model ≠ PULP_MACHINE →
        (check_machine (.ok model) : Except (Error ε) Unit) = .ok ()) := by
  intro ε model
  constructor
  · intro h
    simp [check_machine, h]
  · intro h
    simp [check_machine, h]

/-- Witness for C5 at the denylisted model and at the near-match with a
period in place of the comma. -/
theorem C5_machine_denylist_witness :
    (check_machine (.ok "MacBookPro16,1") : Except (Error Unit) Unit)
      = .error .BadMacModel
    ∧ (check_machine (.ok "MacBookPro16.1") : Except (Error Unit) Unit)
      = .ok () :=
  ⟨(C5_machine_denylist Unit "MacBookPro16,1").1 rfl,
   (C5_machine_denylist Unit "MacBookPro16.1").2 (by decide)⟩

/-- Claim C6: `check()` returns success when both sub-checks succeed, and
the single unwrapped error when exactly one fails.  The fourth conjunct
shows the machine sub-check is consulted even when the version check has
already failed (no short-circuit): its failure changes the result from the
bare version error to a `Many` wrapper. -/
theorem C6_check_aggregation :
    (∀ (ε : Type) (vq mq : Except ε String),
      check_posix vq = .ok () → check_machine mq = .ok () →
      check vq mq = .ok ())
    ∧ (∀ (ε : Type) (vq mq : Except ε String) (e : Error ε),
      check_posix vq = .error e → check_machine mq = .ok () →
      check vq mq = .error e)
    ∧ (∀ (ε : Type) (vq mq : Except ε String) (e : Error ε),
      check_posix vq = .ok () → check_machine mq = .error e →
      check vq mq = .error e)
    ∧ (∀ (ε : Type) (vq mq : Except ε String) (e₁ e₂ : Error ε),
      check_posix vq = .error e₁ → check_machine mq = .error e₂ →
      check vq mq = .error (.Many [e₁])) := by
  refine ⟨?_, ?_, ?_, ?_⟩
  · intro ε vq mq hp hm
    simp only [check, hp, hm]
    rfl
  · intro ε vq mq e hp hm
    simp only [check, hp, hm]
    rfl
  · intro ε vq mq e hp hm
    simp only [check, hp, hm]
    rfl
  · intro ε vq mq e₁ e₂ hp hm
    simp only [check, hp, hm]
    rfl

/-- Witness for C6 at concrete system values. -/
theorem C6_check_aggregation_witness :
    (check (.ok "13") (.ok "iMac") : Except (Error Unit) Unit) = .ok ()
    ∧ (check (.ok "15") (.ok "iMac") : Except (Error Unit) Unit)
      = .error .NotPosix :=
  ⟨C6_check_aggregation.1 Unit (.ok "13") (.ok "iMac") rfl rfl,
   C6_check_aggregation.2.1 Unit (.ok "15") (.ok "iMac") .NotPosix rfl rfl⟩

/-- Claim C7: the version string `14` fails with `ParseOsVersion` although
it is non-empty and all its components parse; the post-loop error branch
yields `ParseOsVersion` whenever it is reached; and it is reached exactly
when the string has a single component that parses to 14. -/
theorem C7_post_loop_branch :
    ((check_posix_str "14" : Except (Error Unit) Unit)
      = .error .ParseOsVersion)
    ∧ ("14" ≠ "" ∧ ∀ c ∈ split_dot ("14").data, (parse_usize c).isSome)
    ∧ (∀ (l : List (List Char)) (b : Bool),
        check_posix_loop_exhausts l b = true →
        (check_posix_loop l b : Except (Error Unit) Unit)
          = .error .ParseOsVersion)
    ∧ (∀ (v : String) (maj : List Char) (rest : List (List Char)),
        split_dot v.data = maj :: rest →
        (check_posix_loop_exhausts (split_dot v.data) false = true
          ↔ rest = [] ∧ parse_usize maj = some 14)) := by
  refine ⟨rfl, ⟨by decide, by decide⟩, ?_, ?_⟩
  · intro l
    induction l with
    | nil => intro b _; cases b <;> rfl
    | cons num rest ih =>
      intro b h
      cases b with
      | true => simp [check_posix_loop_exhausts] at h
      | false =>
        simp only [check_posix_loop_exhausts] at h
        split at h
        · simp at h
        next v hp =>
          split at h
          next h13 => simp at h
          next h13 =>
            split at h
            next h14 =>
              simp only [check_posix_loop, hp]
              rw [if_neg h13, if_pos h14]
              exact ih true h
            next h14 => simp at h
  · intro v maj rest hsplit
    rw [hsplit]
    constructor
    · intro h
      simp only [check_posix_loop_exhausts] at h
      split at h
      · simp at h
      next w hp =>
        split at h
        next h13 => simp at h
        next h13 =>
          split at h
          next h14 =>
            cases rest with
            | nil => exact ⟨rfl, by rw [hp, h14]⟩
            | cons x t => simp [check_posix_loop_exhausts] at h
          next h14 => simp at h
    · rintro ⟨hrest, hp⟩
      subst hrest
      simp [check_posix_loop_exhausts, hp]

/-- Witness for C7: on `14` the loop exhausts and the post-loop branch
produces `ParseOsVersion`. -/
theorem C7_post_loop_branch_witness :
    check_posix_loop_exhausts (split_dot ("14").data) false = true
    ∧ (check_posix_loop [['1', '4']] false : Except (Error Unit) Unit)
      = .error .ParseOsVersion :=
  ⟨(C7_post_loop_branch.2.2.2 "14" ['1', '4'] [] rfl).mpr ⟨rfl, rfl⟩,
   C7_post_loop_branch.2.2.1 [['1', '4']] false rfl⟩

/-- Claim C8 (code bug): a failed sysctl query makes the sub-check fail
with `Sysctl` wrapping the system error (first conjunct), but when the
other sub-check also fails, `check()` drops that wrapped error: with
version `15.0` and a failing `hw.model` query it returns
`Many [NotPosix]`, which contains no trace of the system error, against
the spec's requirement that the system error be propagated. -/
theorem C8_sysctl_error_dropped :
    (check_machine (.error ()) : Except (Error Unit) Unit)
      = .error (.Sysctl ())
    ∧ (check_posix (.error ()) : Except (Error Unit) Unit)
      = .error (.Sysctl ())
    ∧ (check (.ok "15.0") (.error ()) : Except (Error Unit) Unit)
      = .error (.Many [.NotPosix]) :=
  ⟨rfl, rfl, rfl⟩

/-- Claim C9: the outcome of the version check depends only on the first
two dot-separated components of the version string; two strings whose
component lists agree on `take 2` (which also forces agreement on whether a
second component exists) get the same result. -/
theorem C9_first_two_components :
    ∀ (ε : Type) (v₁ v₂ : String),
      (split_dot v₁.data).take 2 = (split_dot v₂.data).take 2 →
      (check_posix_str v₁ : Except (Error ε) Unit) = check_posix_str v₂ := by
  intro ε v₁ v₂ h
  exact check_posix_loop_take_two _ _ h

/-- Witness for C9: `14.2.1` and `14.2.99` share their first two components
and get the same result. -/
theorem C9_first_two_components_witness :
    (check_posix_str "14.2.1" : Except (Error Unit) Unit)
      = check_posix_str "14.2.99" :=
  C9_first_two_components Unit "14.2.1" "14.2.99" (by decide)

/-- Claim C10: an invocation of `check()` is a pure function of the two
system-reported values: equal system states give identical results, and the
state after an invocation is the state before it (the source performs only
read-only sysctl queries). -/
theorem C10_deterministic_stateless :
    ∀ (ε : Type) (s₁ s₂ : SystemState ε), s₁ = s₂ →
      run_check s₁ = run_check s₂ ∧ (run_check s₁).2 = s₁ := by
  intro ε s₁ s₂ h
  subst h
  exact ⟨rfl, rfl⟩

/-- Witness for C10 at a concrete system state. -/
theorem C10_deterministic_stateless_witness :
    run_check (SystemState.mk (.ok "14.3") (.ok "iMac") : SystemState Unit)
      = run_check (SystemState.mk (.ok "14.3") (.ok "iMac"))
    ∧ (run_check
        (SystemState.mk (.ok "14.3") (.ok "iMac") : SystemState Unit)).2
      = SystemState.mk (.ok "14.3") (.ok "iMac") :=
  C10_deterministic_stateless Unit _ _ rfl

end Dikc
